import Mathlib

/-! Wizard state machine and provisioning pipeline of automountify.

A shallow embedding of `main.go` (package `main` of kintsdev/automountify).

* Go `string` values are Lean `String`s, Go `error` values are `GoError`s,
  a nil error is `none`.
* The operating system (external commands, the file system) is an explicit
  world `σ` threaded through the operations of an `OS σ`.
* The bubbles widgets (`list.Model`, `textinput.Model`) are library values;
  their operations are the fields of a `Widgets L T`.
* A runtime panic is `none` in an `Option` result.
-/

namespace Automountify

/-! ## Go values -/

/-- Go `error` values met by the program. `text` is any error whose `Error()`
is the given message (`errors.New`, errors of `os` and `os/exec`), `numError`
is `*strconv.NumError`, and `errorf pref cause` is the value of
`fmt.Errorf(pref + ": %w", cause)`. -/
inductive GoError where
  | text (msg : String)
  | numError (fn : String) (num : String) (err : GoError)
  | errorf (pref : String) (cause : GoError)
deriving DecidableEq, Repr

namespace GoError

/-- The sentinel `strconv.ErrSyntax`. -/
def ErrSyntax : GoError := .text "invalid syntax"

/-- The sentinel `strconv.ErrRange`. -/
def ErrRange : GoError := .text "value out of range"

/-- The method `Error()`. `quote` stands for `strconv.Quote`, used by
`(*NumError).Error`. -/
def Error (quote : String → String) : GoError → String
  | .text msg => msg
  | .numError fn num err =>
      "strconv." ++ fn ++ ": parsing " ++ quote num ++ ": " ++ Error quote err
  | .errorf pref cause => pref ++ ": " ++ Error quote cause

end GoError

/-! ## `strconv.ParseUint` -/

/-- The constant `maxUint64` of `strconv`. -/
def maxUint64 : Nat := 2 ^ 64 - 1

/-- The helper `lower` of `strconv`: `c | ('x' - 'X')`. -/
def lower (c : Nat) : Nat := c ||| 0x20

/-- The digit value the loop of `ParseUint` gives a byte, `none` for the
`default` branch of its switch (a syntax error). -/
def digitOf (c : Nat) : Option Nat :=
  if 48 ≤ c ∧ c ≤ 57 then some (c - 48)
  else if 97 ≤ lower c ∧ lower c ≤ 122 then some (lower c - 97 + 10)
  else none

/-- The helper `syntaxError` of `strconv`. -/
def syntaxError (fn str : String) : GoError := .numError fn str GoError.ErrSyntax

/-- The helper `rangeError` of `strconv`. -/
def rangeError (fn str : String) : GoError := .numError fn str GoError.ErrRange

/-- The loop of `ParseUint` over the remaining input, `n` the value so far.
`uint64` arithmetic is arithmetic modulo `2 ^ 64`. -/
def parseUintLoop (s0 : String) (base cutoff maxVal : Nat) :
    List Char → Nat → Except GoError Nat
  | [], n => .ok n
  | c :: cs, n =>
    match digitOf c.toNat with
    | none => .error (syntaxError "ParseUint" s0)
    | some d =>
      if d ≥ base then .error (syntaxError "ParseUint" s0)
      else if n ≥ cutoff then .error (rangeError "ParseUint" s0)
      else
        let n' := (n * base) % 2 ^ 64
        let n1 := (n' + d) % 2 ^ 64
        if n1 < n' ∨ n1 > maxVal then .error (rangeError "ParseUint" s0)
        else parseUintLoop s0 base cutoff maxVal cs n1

/-- Modelled from the spec: `strconv.ParseUint` of the Go standard library,
which `formatAndMount` calls as `ParseUint(m.permissions, 8, 32)` and which is
not part of `main.go`. The model follows the library routine for an explicit
base `2 ≤ base ≤ 36` and a bit size `1 ≤ bitSize ≤ 64`: an empty input is a
syntax error, each input element is turned into a digit, a non-digit or a
digit not below the base is a syntax error, and a value above
`2 ^ bitSize - 1` is a range error. The input is walked character by
character; a character outside ASCII has only bytes `≥ 0x80`, which the
library sends to the same syntax-error branch. Base `0` (prefix detection)
and bit size `0` are never used by the program and are answered here like
any other unsupported base or size. -/
def ParseUint (s : String) (base bitSize : Nat) : Except GoError Nat :=
  if s = "" then .error (syntaxError "ParseUint" s)
  else if ¬ (2 ≤ base ∧ base ≤ 36) then
    .error (.numError "ParseUint" s (.text ("invalid base " ++ toString base)))
  else if ¬ (1 ≤ bitSize ∧ bitSize ≤ 64) then
    .error (.numError "ParseUint" s (.text ("invalid bit size " ++ toString bitSize)))
  else
    let cutoff := maxUint64 / base + 1
    let maxVal := 2 ^ bitSize - 1
    parseUintLoop s base cutoff maxVal s.toList 0

/-! ## `strings.TrimSpace` -/

/-- The predicate `unicode.IsSpace`: the Latin-1 spaces, and above Latin-1 the
code points of the Unicode property White_Space. -/
def unicodeIsSpace (r : Char) : Bool :=
  let n := r.toNat
  if n ≤ 0xFF then
    n = 0x09 ∨ n = 0x0A ∨ n = 0x0B ∨ n = 0x0C ∨ n = 0x0D ∨ n = 0x20 ∨ n = 0x85 ∨
      n = 0xA0
  else
    n = 0x1680 ∨ (0x2000 ≤ n ∧ n ≤ 0x200A) ∨ n = 0x2028 ∨ n = 0x2029 ∨ n = 0x202F ∨
      n = 0x205F ∨ n = 0x3000

/-- Modelled from the spec: `strings.TrimSpace` of the Go standard library,
which `formatAndMount` applies to the output of `blkid` and which is not part
of `main.go`: the input without its leading and trailing white space, as
defined by `unicode.IsSpace`. -/
def TrimSpace (s : String) : String :=
  ⟨((s.toList.dropWhile unicodeIsSpace).reverse.dropWhile unicodeIsSpace).reverse⟩

/-! ## The wizard session -/

/-- The type `state`: the phase of the wizard. -/
inductive state where
  | stateChooseDisk
  | stateEnterMountPoint
  | stateEnterPermissions
  | stateFormatAndMount
  | stateDone
deriving DecidableEq, Repr

/-- The value of the `iota` constant of a phase. -/
def state.toNat : state → Nat
  | .stateChooseDisk => 0
  | .stateEnterMountPoint => 1
  | .stateEnterPermissions => 2
  | .stateFormatAndMount => 3
  | .stateDone => 4

/-- The type `DiskItem`. -/
structure DiskItem where
  name : String
deriving DecidableEq, Repr

/-- The messages `Update` distinguishes in its type switches: a `tea.KeyMsg`
(given by the value of its `String()` method), a `tickMsg`, a Go `string`, a
Go `error`, and any other message. -/
inductive Msg where
  | key (s : String)
  | tickMsg
  | str (s : String)
  | err (e : GoError)
  | other
deriving DecidableEq, Repr

/-- The type `loadingModel`; `tickIndex` is a Go `int`. -/
structure loadingModel where
  tickIndex : Int
  ticks : List String
deriving DecidableEq, Repr

/-- The function `newLoadingModel`. -/
def newLoadingModel : loadingModel :=
  { tickIndex := 0
    ticks := ["⠋", "⠙", "⠹", "⠸", "⠼", "⠴", "⠦", "⠧", "⠇", "⠏"] }

/-- The value of a Go `int` (64 bits, two's complement) after an operation whose
mathematical result is `x`. -/
def wrapInt (x : Int) : Int := (x + 2 ^ 63) % 2 ^ 64 - 2 ^ 63

/-- The method `loadingModel.next`. The remainder `%` of Go truncates towards
zero and panics on a zero divisor (`none`). -/
def loadingModel.next (lm : loadingModel) : Option loadingModel :=
  if lm.ticks.length = 0 then none
  else some
    { tickIndex := Int.tmod (wrapInt (lm.tickIndex + 1)) (lm.ticks.length : Int)
      ticks := lm.ticks }

/-- The operations of the bubbles widgets which `main.go` uses, on a list
widget `L` (`list.Model`) and a text input `T` (`textinput.Model`). -/
structure Widgets (L T : Type) where
  /-- The call `list.New(items, list.NewDefaultDelegate(), 20, 10)`. -/
  listNew : List DiskItem → L
  /-- Assignment to the field `Title`. -/
  listSetTitle : L → String → L
  /-- The assertion `l.SelectedItem().(DiskItem)`, `none` when it fails. -/
  listSelectedItem : L → Option DiskItem
  /-- The first result of `l.Update(msg)`. -/
  listUpdate : L → Msg → L
  /-- The call `textinput.New()`. -/
  textInputNew : T
  /-- The call `ti.Focus()`, as the widget after it. -/
  textInputFocus : T → T
  /-- Assignment to the field `Placeholder`. -/
  textInputSetPlaceholder : T → String → T
  /-- The call `ti.SetValue(s)`, as the widget after it. -/
  textInputSetValue : T → String → T
  /-- The call `ti.Value()`. -/
  textInputValue : T → String
  /-- The first result of `ti.Update(msg)`. -/
  textInputUpdate : T → Msg → T

/-- The type `model`: the wizard session. `err` is `none` for a nil error. -/
structure model (L T : Type) where
  state : state
  disks : List DiskItem
  selectedDisk : String
  mountPoint : String
  permissions : String
  list : L
  textInput : T
  loading : loadingModel
  err : Option GoError

/-- The commands `Update` returns (a nil command is `none`): `tea.Quit`,
`tickCmd()`, the closure `m.formatAndMount()` with the receiver it captured,
and `tea.Batch` of two commands. -/
inductive Cmd (L T : Type) where
  | quit
  | tickCmd
  | formatAndMount (m : model L T)
  | batch (c1 c2 : Cmd L T)

/-- The function `initialModel`, for the disks `getAvailableDisks` returned. -/
def initialModel {L T : Type} (w : Widgets L T) (disks : List DiskItem) : model L T :=
  let items := disks.map (fun disk => ({ name := disk.name } : DiskItem))
  let l := w.listSetTitle (w.listNew items) "Select a disk"
  let ti := w.textInputFocus
    (w.textInputSetPlaceholder w.textInputNew "Enter mount point (e.g., /mnt/data)")
  { state := .stateChooseDisk
    disks := disks
    selectedDisk := ""
    mountPoint := ""
    permissions := ""
    list := l
    textInput := ti
    loading := newLoadingModel
    err := none }

/-- The method `model.Update`. The result is `none` when the call panics. In
each phase a case of the inner switches that does not return falls through
to the statement after them and to the final `return m, nil`. -/
def Update {L T : Type} (w : Widgets L T) (m : model L T) (msg : Msg) :
    Option (model L T × Option (Cmd L T)) :=
  match m.state with
  | .stateChooseDisk =>
    let rest := some ({ m with list := w.listUpdate m.list msg }, none)
    match msg with
    | .key s =>
      if s = "enter" then
        let m1 := match w.listSelectedItem m.list with
          | some selected =>
            { m with selectedDisk := selected.name, state := .stateEnterMountPoint }
          | none => m
        some ({ m1 with textInput := w.textInputSetValue m1.textInput "" }, none)
      else if s = "q" then some (m, some .quit)
      else rest
    | _ => rest
  | .stateEnterMountPoint =>
    let rest := some ({ m with textInput := w.textInputUpdate m.textInput msg }, none)
    match msg with
    | .key s =>
      if s = "enter" then
        let m1 := { m with mountPoint := w.textInputValue m.textInput }
        let m2 := { m1 with textInput := w.textInputSetValue m1.textInput "" }
        let m3 := { m2 with
          textInput := w.textInputSetPlaceholder m2.textInput "Enter permissions (e.g., 0755)" }
        some ({ m3 with state := .stateEnterPermissions }, none)
      else if s = "q" then some (m, some .quit)
      else rest
    | _ => rest
  | .stateEnterPermissions =>
    let rest := some ({ m with textInput := w.textInputUpdate m.textInput msg }, none)
    match msg with
    | .key s =>
      if s = "enter" then
        let m1 := { m with permissions := w.textInputValue m.textInput }
        let m2 := { m1 with state := .stateFormatAndMount }
        some (m2, some (.batch (.formatAndMount m2) .tickCmd))
      else if s = "q" then some (m, some .quit)
      else rest
    | _ => rest
  | .stateFormatAndMount =>
    match msg with
    | .tickMsg =>
      match m.loading.next with
      | none => none
      | some lm => some ({ m with loading := lm }, some .tickCmd)
    | .str _ => some ({ m with state := .stateDone, err := none }, none)
    | .err e => some ({ m with state := .stateDone, err := some e }, none)
    | _ => some (m, none)
  | .stateDone =>
    match msg with
    | .key s => if s = "q" then some (m, some .quit) else some (m, none)
    | _ => some (m, none)

/-- The text `main` prints after `p.Run()` returned the final model without
an error: `fmt.Printf("An error occurred: %v\n", m.err)` or
`fmt.Println("Program completed successfully!")`. `quote` is `strconv.Quote`
(see `GoError.Error`). -/
def mainOutput {L T : Type} (quote : String → String) (m : model L T) : String :=
  match m.err with
  | some e => "An error occurred: " ++ e.Error quote ++ "\n"
  | none => "Program completed successfully!" ++ "\n"

/-! ## The provisioning pipeline -/

/-- The operations on the operating system which `formatAndMount` performs,
each a function of the world before the call that gives the error (or
output) of the call and the world after it. -/
structure OS (σ : Type) where
  /-- The call `exec.Command("sudo", "mkfs.ext4", disk).Run()`. -/
  mkfs : String → σ → Option GoError × σ
  /-- The call `os.MkdirAll(path, os.FileMode(perm))`. -/
  mkdirAll : String → Nat → σ → Option GoError × σ
  /-- The call `exec.Command("sudo", "mount", disk, mountPoint).Run()`. -/
  mount : String → String → σ → Option GoError × σ
  /-- The call `exec.Command("sudo", "blkid", "-s", "UUID", "-o", "value", disk).Output()`. -/
  blkid : String → σ → Except GoError String × σ
  /-- The call `os.OpenFile("/etc/fstab", os.O_APPEND|os.O_WRONLY, 0644)`. -/
  openFstab : σ → Option GoError × σ
  /-- The call `fstabFile.WriteString(line)`. -/
  writeString : String → σ → Option GoError × σ
  /-- The deferred `fstabFile.Close()`, whose error is dropped. -/
  close : σ → σ
  /-- The call `exec.Command("sudo", "mount", "-a").Run()`. -/
  mountAll : σ → Option GoError × σ

/-- A call of an operation of `OS`, with its arguments. -/
inductive Call where
  | mkfs (disk : String)
  | mkdirAll (path : String) (perm : Nat)
  | mount (disk : String) (mountPoint : String)
  | blkid (disk : String)
  | openFstab
  | writeString (line : String)
  | close
  | mountAll
deriving DecidableEq, Repr

/-- The step of the pipeline (1 to 7) a call belongs to; step 1, parsing the
permissions, makes no call. -/
def Call.step : Call → Nat
  | .mkfs _ => 2
  | .mkdirAll _ _ => 3
  | .mount _ _ => 4
  | .blkid _ => 5
  | .openFstab => 6
  | .writeString _ => 6
  | .close => 6
  | .mountAll => 7

/-- A run of the pipeline: the world it leaves, the calls it made in order,
and the message it returns. -/
structure Run (σ : Type) where
  world : σ
  calls : List Call
  msg : Msg

/-- The entry `fmt.Sprintf("UUID=%s %s ext4 defaults,nofail 0 2\n", uuid, mountPoint)`. -/
def fstabEntry (uuid mountPoint : String) : String :=
  "UUID=" ++ uuid ++ " " ++ mountPoint ++ " ext4 defaults,nofail 0 2\n"

/-- The conversion `os.FileMode(perm)` of a `uint64` to the 32-bit file mode. -/
def FileMode (perm : Nat) : Nat := perm % 2 ^ 32

/-- The closure returned by the method `model.formatAndMount`, run in the
world `s`. -/
def formatAndMount {L T σ : Type} (os : OS σ) (m : model L T) (s : σ) : Run σ :=
  match ParseUint m.permissions 8 32 with
  | .error err => ⟨s, [], .err (.errorf "invalid permissions" err)⟩
  | .ok perm =>
  -- Format the disk
  match os.mkfs m.selectedDisk s with
  | (some err, s1) =>
    ⟨s1, [.mkfs m.selectedDisk], .err (.errorf "failed to format disk" err)⟩
  | (none, s1) =>
  -- Create mount point
  let c2 : List Call := [.mkfs m.selectedDisk, .mkdirAll m.mountPoint (FileMode perm)]
  match os.mkdirAll m.mountPoint (FileMode perm) s1 with
  | (some err, s2) => ⟨s2, c2, .err (.errorf "failed to create mount point" err)⟩
  | (none, s2) =>
  -- Mount the disk
  let c3 := c2 ++ [.mount m.selectedDisk m.mountPoint]
  match os.mount m.selectedDisk m.mountPoint s2 with
  | (some err, s3) => ⟨s3, c3, .err (.errorf "failed to mount disk" err)⟩
  | (none, s3) =>
  -- Get UUID and update /etc/fstab
  let c4 := c3 ++ [.blkid m.selectedDisk]
  match os.blkid m.selectedDisk s3 with
  | (.error err, s4) => ⟨s4, c4, .err (.errorf "failed to get disk UUID" err)⟩
  | (.ok output, s4) =>
  let uuid := TrimSpace output
  let entry := fstabEntry uuid m.mountPoint
  let c5 := c4 ++ [.openFstab]
  match os.openFstab s4 with
  | (some err, s5) => ⟨s5, c5, .err (.errorf "failed to update /etc/fstab" err)⟩
  | (none, s5) =>
  let c6 := c5 ++ [.writeString entry]
  match os.writeString entry s5 with
  | (some err, s6) =>
    ⟨os.close s6, c6 ++ [.close], .err (.errorf "failed to write to /etc/fstab" err)⟩
  | (none, s6) =>
  -- Test mount
  let c7 := c6 ++ [.mountAll]
  match os.mountAll s6 with
  | (some err, s7) => ⟨os.close s7, c7 ++ [.close], .err (.errorf "failed to test mount" err)⟩
  | (none, s7) =>
  ⟨os.close s7, c7 ++ [.close], .str "Disk successfully formatted and mounted!"⟩

/-! ## Sessions: sequences of calls of `Update` -/

/-- Whether a command launches the pipeline: it is the closure of
`formatAndMount`, or a batch that holds one. -/
def Cmd.launches {L T : Type} : Cmd L T → Bool
  | .formatAndMount _ => true
  | .batch c1 c2 => c1.launches || c2.launches
  | _ => false

/-- One call of `Update` in a session: the session before, the message, the
session and the command returned. -/
structure Transition (L T : Type) where
  before : model L T
  msg : Msg
  after : model L T
  cmd : Option (Cmd L T)

/-- The call returns a command that launches the pipeline. -/
def Transition.launches {L T : Type} (t : Transition L T) : Bool :=
  match t.cmd with
  | some c => c.launches
  | none => false

/-- The call enters the phase `p`: the session was in another phase before
and is in `p` after. -/
def Transition.enters {L T : Type} (p : state) (t : Transition L T) : Bool :=
  decide (t.before.state ≠ p) && decide (t.after.state = p)

/-- The calls of `Update` the event loop makes when the messages `msgs` arrive
in this order, starting from the session `m`: each call is made on the session
the call before returned; a panic ends the session. -/
def session {L T : Type} (w : Widgets L T) : model L T → List Msg → List (Transition L T)
  | _, [] => []
  | m, msg :: rest =>
    match Update w m msg with
    | none => []
    | some (m', c) => ⟨m, msg, m', c⟩ :: session w m' rest

/-- The session `p.Run()` returns when the event loop stops after the messages
`msgs`: the one the last call of `Update` returned, or the starting one when
no call was made. -/
def finalModel {L T : Type} (w : Widgets L T) (m : model L T) (msgs : List Msg) : model L T :=
  match (session w m msgs).getLast? with
  | some t => t.after
  | none => m

/-! ## Reading of the specification: octal permission texts -/

/-- A digit `0` to `7` (code points 48 to 55). -/
def isOctalDigit (c : Char) : Bool := 48 ≤ c.toNat && c.toNat ≤ 55

/-- The value of a list of octal digits, most significant first, after the
value `n` of the digits before them. -/
def octalFold (n : Nat) (cs : List Char) : Nat :=
  cs.foldl (fun a c => a * 8 + (c.toNat - 48)) n

/-- The octal value of a text of octal digits. -/
def octalValue (s : String) : Nat := octalFold 0 s.toList

/-- A permission text the specification accepts: a non-empty string of digits
`0` to `7` whose octal value fits in an unsigned 32-bit integer. -/
def validPermissions (s : String) : Prop :=
  s ≠ "" ∧ s.toList.all isOctalDigit = true ∧ octalValue s < 2 ^ 32

instance (s : String) : Decidable (validPermissions s) := by
  unfold validPermissions; infer_instance

/-! ## Reading of the specification: failure kinds -/

/-- The failure kinds of the specification, one for each step of the pipeline. -/
inductive FailureKind where
  | InvalidPermissions
  | FormatFailed
  | MkdirFailed
  | MountFailed
  | UUIDLookupFailed
  | FstabWriteFailed
  | VerifyMountFailed
deriving DecidableEq, Repr

/-- The step (1 to 7) whose failure a kind reports. -/
def FailureKind.step : FailureKind → Nat
  | .InvalidPermissions => 1
  | .FormatFailed => 2
  | .MkdirFailed => 3
  | .MountFailed => 4
  | .UUIDLookupFailed => 5
  | .FstabWriteFailed => 6
  | .VerifyMountFailed => 7

/-- The failure kind and underlying cause of an error of the pipeline, read
off the message with which `formatAndMount` wraps the cause. -/
def classify : GoError → Option (FailureKind × GoError)
  | .errorf pref cause =>
    if pref = "invalid permissions" then some (.InvalidPermissions, cause)
    else if pref = "failed to format disk" then some (.FormatFailed, cause)
    else if pref = "failed to create mount point" then some (.MkdirFailed, cause)
    else if pref = "failed to mount disk" then some (.MountFailed, cause)
    else if pref = "failed to get disk UUID" then some (.UUIDLookupFailed, cause)
    else if pref = "failed to update /etc/fstab" then some (.FstabWriteFailed, cause)
    else if pref = "failed to write to /etc/fstab" then some (.FstabWriteFailed, cause)
    else if pref = "failed to test mount" then some (.VerifyMountFailed, cause)
    else none
  | _ => none

/-! ## Reading of the specification: white space around a UUID -/

/-- A text made of white space only (possibly empty). -/
def isBlank (s : String) : Bool := s.toList.all unicodeIsSpace

/-- A text free of leading and trailing white space: neither its first nor its
last character, if any, is white space. -/
def isTrimmed (s : String) : Bool :=
  (s.toList.head?.map unicodeIsSpace != some true) &&
    (s.toList.getLast?.map unicodeIsSpace != some true)

/-! ## Worked examples: a substitute operating system -/

/-- A substitute operating system for worked examples. The world is the list
of the lines appended to the mount table; mounting gives `mountErr`, `blkid`
gives `blkidOut`, and every other operation succeeds. -/
def fakeOS (mountErr : Option GoError) (blkidOut : Except GoError String) :
    OS (List String) where
  mkfs := fun _ w => (none, w)
  mkdirAll := fun _ _ w => (none, w)
  mount := fun _ _ w => (mountErr, w)
  blkid := fun _ w => (blkidOut, w)
  openFstab := fun w => (none, w)
  writeString := fun line w => (none, w ++ [line])
  close := fun w => w
  mountAll := fun w => (none, w)

/-- Widgets without content, for worked examples. -/
def unitWidgets : Widgets Unit Unit where
  listNew := fun _ => ()
  listSetTitle := fun _ _ => ()
  listSelectedItem := fun _ => none
  listUpdate := fun _ _ => ()
  textInputNew := ()
  textInputFocus := fun _ => ()
  textInputSetPlaceholder := fun _ _ => ()
  textInputSetValue := fun _ _ => ()
  textInputValue := fun _ => ""
  textInputUpdate := fun _ _ => ()

/-- Simple widgets for worked examples. The list widget is the list of its
items from the selected one on, and the key `down` moves the selection to the
next item; the text input is its value, and a key message of typed characters
appends them. -/
def demoWidgets : Widgets (List DiskItem) String where
  listNew := fun items => items
  listSetTitle := fun l _ => l
  listSelectedItem := fun l => l.head?
  listUpdate := fun l msg => if msg = .key "down" then l.tail else l
  textInputNew := ""
  textInputFocus := fun t => t
  textInputSetPlaceholder := fun t _ => t
  textInputSetValue := fun _ v => v
  textInputValue := fun t => t
  textInputUpdate := fun t msg =>
    match msg with
    | .key s => t ++ s
    | _ => t

/-- The disks of the end-to-end scenario of the specification. -/
def demoDisks : List DiskItem := [⟨"/dev/sda"⟩, ⟨"/dev/sdb"⟩]

/-- The error of the end-to-end failure scenario: mounting fails with the
cause `device busy`. -/
def deviceBusy : GoError := .errorf "failed to mount disk" (.text "device busy")

/-- The messages of the end-to-end failure scenario: the user selects the
second disk, enters the mount point and the permissions, two ticks pass, the
pipeline reports the failed mount, a late tick arrives and the user quits. -/
def demoMsgs : List Msg :=
  [.key "down", .key "enter", .key "/mnt/data", .key "enter", .key "0755", .key "enter",
    .tickMsg, .tickMsg, .err deviceBusy, .tickMsg, .key "q"]

/-- The session of the end-to-end scenario of the specification at the launch
of the pipeline: disk `/dev/sdb`, mount point `/mnt/data`, permissions `0755`. -/
def demoModel : model Unit Unit :=
  { state := .stateFormatAndMount
    disks := [⟨"/dev/sda"⟩, ⟨"/dev/sdb"⟩]
    selectedDisk := "/dev/sdb"
    mountPoint := "/mnt/data"
    permissions := "0755"
    list := ()
    textInput := ()
    loading := newLoadingModel
    err := none }

/-! ## Lemmas on `ParseUint` -/

theorem digitOf_lt_eight {c d : Nat} (h : digitOf c = some d) (hd : d < 8) :
    48 ≤ c ∧ c ≤ 55 ∧ d = c - 48 := by
  unfold digitOf at h
  split at h
  · simp at h; omega
  · split at h
    · simp at h; omega
    · simp at h

theorem digitOf_octal {c : Nat} (h1 : 48 ≤ c) (h2 : c ≤ 55) : digitOf c = some (c - 48) := by
  unfold digitOf
  rw [if_pos ⟨h1, by omega⟩]

theorem le_octalFold (cs : List Char) (n : Nat) : n ≤ octalFold n cs := by
  induction cs generalizing n with
  | nil => simp [octalFold]
  | cons c cs ih =>
    have h := ih (n * 8 + (c.toNat - 48))
    simp only [octalFold, List.foldl_cons] at h ⊢
    omega

theorem parseUintLoop_ok (s0 : String) (cs : List Char) (n : Nat)
    (hall : cs.all isOctalDigit = true) (hv : octalFold n cs < 2 ^ 32) :
    parseUintLoop s0 8 (maxUint64 / 8 + 1) (2 ^ 32 - 1) cs n = .ok (octalFold n cs) := by
  induction cs generalizing n with
  | nil => simp [parseUintLoop, octalFold]
  | cons c cs ih =>
    simp only [List.all_cons, Bool.and_eq_true, isOctalDigit, decide_eq_true_eq] at hall
    obtain ⟨⟨h1, h2⟩, hrest⟩ := hall
    have hstep : octalFold n (c :: cs) = octalFold (n * 8 + (c.toNat - 48)) cs := by
      simp [octalFold]
    rw [hstep] at hv ⊢
    have hle := le_octalFold cs (n * 8 + (c.toNat - 48))
    have hn : n < 2 ^ 29 := by omega
    have e1 : n * 8 % 2 ^ 64 = n * 8 := Nat.mod_eq_of_lt (by omega)
    have e2 : (n * 8 + (c.toNat - 48)) % 2 ^ 64 = n * 8 + (c.toNat - 48) :=
      Nat.mod_eq_of_lt (by omega)
    have hcut : ¬ (n ≥ maxUint64 / 8 + 1) := by
      simp only [maxUint64]; omega
    simp only [parseUintLoop, digitOf_octal h1 h2]
    rw [if_neg (by omega), if_neg hcut]
    simp only [e1, e2]
    rw [if_neg (by omega)]
    exact ih _ hrest hv

theorem parseUintLoop_error (s0 : String) (cs : List Char) (n : Nat) (hn : n < 2 ^ 32)
    (h : ¬ (cs.all isOctalDigit = true ∧ octalFold n cs < 2 ^ 32)) :
    ∃ e, parseUintLoop s0 8 (maxUint64 / 8 + 1) (2 ^ 32 - 1) cs n = .error e := by
  induction cs generalizing n with
  | nil =>
    exfalso
    apply h
    exact ⟨rfl, by simpa [octalFold] using hn⟩
  | cons c cs ih =>
    simp only [parseUintLoop]
    cases hd : digitOf c.toNat with
    | none => exact ⟨_, rfl⟩
    | some d =>
      simp only []
      by_cases h8 : d ≥ 8
      · rw [if_pos h8]; exact ⟨_, rfl⟩
      · rw [if_neg h8]
        have hcut : ¬ (n ≥ maxUint64 / 8 + 1) := by
          simp only [maxUint64]; omega
        rw [if_neg hcut]
        have e1 : n * 8 % 2 ^ 64 = n * 8 := Nat.mod_eq_of_lt (by omega)
        have e2 : (n * 8 + d) % 2 ^ 64 = n * 8 + d := Nat.mod_eq_of_lt (by omega)
        simp only [e1, e2]
        by_cases hbig : n * 8 + d < n * 8 ∨ n * 8 + d > 2 ^ 32 - 1
        · rw [if_pos hbig]; exact ⟨_, rfl⟩
        · rw [if_neg hbig]
          obtain ⟨h1, h2, h3⟩ := digitOf_lt_eight hd (by omega)
          apply ih (n * 8 + d) (by omega)
          intro hc
          apply h
          subst h3
          refine ⟨?_, ?_⟩
          · simp only [List.all_cons, Bool.and_eq_true, isOctalDigit, decide_eq_true_eq]
            exact ⟨⟨h1, h2⟩, hc.1⟩
          · simpa [octalFold] using hc.2

theorem ParseUint_ok (s : String) (h : validPermissions s) :
    ParseUint s 8 32 = .ok (octalValue s) := by
  obtain ⟨h1, h2, h3⟩ := h
  unfold ParseUint
  rw [if_neg h1, if_neg (by decide), if_neg (by decide)]
  exact parseUintLoop_ok s s.toList 0 h2 h3

theorem ParseUint_error (s : String) (h : ¬ validPermissions s) :
    ∃ e, ParseUint s 8 32 = .error e := by
  unfold ParseUint
  by_cases h1 : s = ""
  · rw [if_pos h1]; exact ⟨_, rfl⟩
  · rw [if_neg h1, if_neg (by decide), if_neg (by decide)]
    apply parseUintLoop_error s s.toList 0 (by decide)
    intro hc
    exact h ⟨h1, hc.1, hc.2⟩

/-! ## Lemmas on `TrimSpace` -/

theorem dropWhile_append_of_all {α : Type} (p : α → Bool) (l r : List α)
    (h : l.all p = true) : (l ++ r).dropWhile p = r.dropWhile p := by
  induction l with
  | nil => rfl
  | cons a l ih =>
    simp only [List.all_cons, Bool.and_eq_true] at h
    simp [List.dropWhile_cons, h.1, ih h.2]

theorem dropWhile_of_head (p : Char → Bool) (l : List Char)
    (h : (l.head?.map p != some true) = true) : l.dropWhile p = l := by
  cases l with
  | nil => rfl
  | cons a l =>
    have ha : ¬ p a = true := by simpa using h
    exact List.dropWhile_cons_of_neg ha

theorem TrimSpace_surrounded (pre u post : String) (hpre : isBlank pre = true)
    (hpost : isBlank post = true) (hu : isTrimmed u = true) :
    TrimSpace (pre ++ u ++ post) = u := by
  simp only [isTrimmed, Bool.and_eq_true, String.toList] at hu
  simp only [isBlank, String.toList] at hpre hpost
  apply String.ext
  simp only [TrimSpace, String.toList, String.data_append, List.append_assoc]
  rw [dropWhile_append_of_all _ _ _ hpre]
  cases hud : u.data with
  | nil =>
    have h0 : List.dropWhile unicodeIsSpace post.data = [] :=
      List.dropWhile_eq_nil_iff.mpr (by simpa using hpost)
    simp [h0]
  | cons a l =>
    have h1 := hu.1
    have h2 := hu.2
    simp only [hud] at h1 h2
    have ha : ¬ unicodeIsSpace a = true := by simpa using h1
    rw [List.cons_append, List.dropWhile_cons_of_neg ha, ← List.cons_append,
      List.reverse_append]
    have hrev : post.data.reverse.all unicodeIsSpace = true := by
      simpa using hpost
    rw [dropWhile_append_of_all _ _ _ hrev]
    rw [dropWhile_of_head _ _ (by rw [List.head?_reverse]; exact h2)]
    simp

/-! ## Lemmas on `Update` and sessions -/

/-- One call of `Update`: the phase does not decrease; a launching command is
returned exactly by the key `enter` in `stateEnterPermissions`, which is also
the only way into `stateFormatAndMount`; `stateEnterPermissions` is entered
only from `stateEnterMountPoint`. -/
theorem Update_step {L T : Type} (w : Widgets L T) (m m' : model L T) (msg : Msg)
    (c : Option (Cmd L T)) (h : Update w m msg = some (m', c)) :
    m.state.toNat ≤ m'.state.toNat ∧
    (Transition.launches ⟨m, msg, m', c⟩ = true ↔
      m.state = .stateEnterPermissions ∧ msg = .key "enter") ∧
    (Transition.launches ⟨m, msg, m', c⟩ = true →
      m'.state = .stateFormatAndMount ∧ c = some (.batch (.formatAndMount m') .tickCmd)) ∧
    (Transition.enters .stateFormatAndMount ⟨m, msg, m', c⟩ =
      Transition.launches ⟨m, msg, m', c⟩) ∧
    (Transition.enters .stateEnterPermissions ⟨m, msg, m', c⟩ = true →
      m.state = .stateEnterMountPoint) := by
  cases hs : m.state <;> cases msg <;> simp only [Update, hs] at h <;>
    (try split_ifs at h) <;> (try split at h) <;>
    simp only [Option.some.injEq, Prod.mk.injEq, reduceCtorEq] at h <;>
    obtain ⟨rfl, rfl⟩ := h <;>
    simp_all [Transition.launches, Transition.enters, Cmd.launches, state.toNat]

theorem state.toNat_injective {p q : state} (h : p.toNat = q.toNat) : p = q := by
  cases p <;> cases q <;> simp [state.toNat] at h <;> rfl

/-- Every call of a session is a call of `Update`, made in a phase not before
the phase the session started in. -/
theorem session_mem {L T : Type} (w : Widgets L T) (msgs : List Msg) (m : model L T)
    (t : Transition L T) (ht : t ∈ session w m msgs) :
    Update w t.before t.msg = some (t.after, t.cmd) ∧
      m.state.toNat ≤ t.before.state.toNat := by
  induction msgs generalizing m with
  | nil => simp [session] at ht
  | cons msg rest ih =>
    simp only [session] at ht
    cases hU : Update w m msg with
    | none => simp [hU] at ht
    | some r =>
      obtain ⟨m', c⟩ := r
      simp only [hU, List.mem_cons] at ht
      rcases ht with rfl | ht
      · exact ⟨hU, le_refl _⟩
      · have h1 := ih m' ht
        have h2 := (Update_step w m m' msg c hU).1
        exact ⟨h1.1, le_trans h2 h1.2⟩

/-- No call of a session that starts in the phase `p` or later enters `p`. -/
theorem session_enters_false {L T : Type} (w : Widgets L T) (p : state) (msgs : List Msg)
    (m : model L T) (hm : p.toNat ≤ m.state.toNat) (t : Transition L T)
    (ht : t ∈ session w m msgs) : t.enters p = false := by
  obtain ⟨hU, hle⟩ := session_mem w msgs m t ht
  have hmono := (Update_step w t.before t.after t.msg t.cmd hU).1
  by_contra hc
  simp only [Transition.enters, Bool.not_eq_false, Bool.and_eq_true, decide_eq_true_eq] at hc
  obtain ⟨h1, h2⟩ := hc
  apply h1
  apply state.toNat_injective
  rw [h2] at hmono
  omega

/-- A phase is entered at most once in a session. -/
theorem session_enters_le_one {L T : Type} (w : Widgets L T) (p : state) (msgs : List Msg)
    (m : model L T) : (session w m msgs).countP (Transition.enters p) ≤ 1 := by
  induction msgs generalizing m with
  | nil => simp [session]
  | cons msg rest ih =>
    simp only [session]
    cases hU : Update w m msg with
    | none => simp
    | some r =>
      obtain ⟨m', c⟩ := r
      simp only [List.countP_cons]
      by_cases he : Transition.enters p ⟨m, msg, m', c⟩ = true
      · have hp : m'.state = p := by
          simp only [Transition.enters, Bool.and_eq_true, decide_eq_true_eq] at he
          exact he.2
        have h0 : (session w m' rest).countP (Transition.enters p) = 0 := by
          rw [List.countP_eq_zero]
          intro t ht
          rw [session_enters_false w p rest m' (by rw [hp]) t ht]
          simp
        rw [h0, if_pos he]
      · rw [if_neg he]
        exact ih m'

/-- A session that starts before the phase `stateFormatAndMount` and reaches
it has a call that enters it. -/
theorem session_enters_of_reached {L T : Type} (w : Widgets L T) (msgs : List Msg)
    (m : model L T) (hm : m.state.toNat < 3)
    (h : ∃ t ∈ session w m msgs, t.after.state = .stateFormatAndMount) :
    1 ≤ (session w m msgs).countP (Transition.enters .stateFormatAndMount) := by
  induction msgs generalizing m with
  | nil => simp [session] at h
  | cons msg rest ih =>
    obtain ⟨t, ht, hta⟩ := h
    simp only [session] at ht ⊢
    cases hU : Update w m msg with
    | none => simp [hU] at ht
    | some r =>
      obtain ⟨m', c⟩ := r
      simp only [hU, List.mem_cons] at ht
      simp only [List.countP_cons]
      by_cases hm' : m'.state = .stateFormatAndMount
      · have he : Transition.enters .stateFormatAndMount ⟨m, msg, m', c⟩ = true := by
          simp only [Transition.enters, Bool.and_eq_true, decide_eq_true_eq]
          refine ⟨?_, hm'⟩
          intro hc
          rw [hc] at hm
          simp [state.toNat] at hm
        rw [if_pos he]
        omega
      · rcases ht with rfl | ht
        · exact absurd hta hm'
        · by_cases hlt : m'.state.toNat < 3
          · have := ih m' hlt ⟨t, ht, hta⟩
            omega
          · exfalso
            obtain ⟨hU', hle⟩ := session_mem w rest m' t ht
            have hmono := (Update_step w t.before t.after t.msg t.cmd hU').1
            rw [hta] at hmono
            have h3 : m'.state.toNat = 3 := by
              have hfm : state.toNat .stateFormatAndMount = 3 := rfl
              rw [hfm] at hmono
              omega
            exact hm' (state.toNat_injective (by rw [h3]; rfl))

/-- Along a session the phase after a call is not later than the phase
before any later call. -/
theorem session_pairwise {L T : Type} (w : Widgets L T) (msgs : List Msg) (m : model L T) :
    (session w m msgs).Pairwise (fun a b => a.after.state.toNat ≤ b.before.state.toNat) := by
  induction msgs generalizing m with
  | nil => simp [session]
  | cons msg rest ih =>
    simp only [session]
    cases hU : Update w m msg with
    | none => simp
    | some r =>
      obtain ⟨m', c⟩ := r
      simp only [List.pairwise_cons]
      exact ⟨fun b hb => (session_mem w rest m' b hb).2, ih m'⟩

/-- An error is stored only in the phase `stateDone`: one call of `Update`
keeps this true. -/
theorem Update_err_done {L T : Type} (w : Widgets L T) (m m' : model L T) (msg : Msg)
    (c : Option (Cmd L T)) (h : Update w m msg = some (m', c))
    (hinv : m.err = none ∨ m.state = .stateDone) :
    m'.err = none ∨ m'.state = .stateDone := by
  cases hs : m.state <;> cases msg <;> simp only [Update, hs] at h <;>
    (try split_ifs at h) <;> (try split at h) <;>
    simp only [Option.some.injEq, Prod.mk.injEq, reduceCtorEq] at h <;>
    obtain ⟨rfl, rfl⟩ := h <;>
    simp_all

theorem session_err_done {L T : Type} (w : Widgets L T) (msgs : List Msg) (m : model L T)
    (hinv : m.err = none ∨ m.state = .stateDone) (t : Transition L T)
    (ht : t ∈ session w m msgs) : t.after.err = none ∨ t.after.state = .stateDone := by
  induction msgs generalizing m with
  | nil => simp [session] at ht
  | cons msg rest ih =>
    simp only [session] at ht
    cases hU : Update w m msg with
    | none => simp [hU] at ht
    | some r =>
      obtain ⟨m', c⟩ := r
      simp only [hU, List.mem_cons] at ht
      have h' := Update_err_done w m m' msg c hU hinv
      rcases ht with rfl | ht
      · exact h'
      · exact ih m' h' ht

theorem finalModel_err_done {L T : Type} (w : Widgets L T) (msgs : List Msg) (m : model L T)
    (hinv : m.err = none ∨ m.state = .stateDone) :
    (finalModel w m msgs).err = none ∨ (finalModel w m msgs).state = .stateDone := by
  unfold finalModel
  cases hl : (session w m msgs).getLast? with
  | none => exact hinv
  | some t => exact session_err_done w msgs m hinv t (List.mem_of_getLast?_eq_some hl)

theorem TrimSpace_blank (raw : String) (h : isBlank raw = true) : TrimSpace raw = "" := by
  have := TrimSpace_surrounded raw "" "" h (by decide) (by decide)
  simpa using this

/-! ## The claims -/

/-- C2: step 1 of the pipeline reads the permission text as an octal numeral.
`ParseUint s 8 32` succeeds exactly on the valid permission texts (non-empty,
digits `0` to `7` only, octal value below `2 ^ 32`) and then gives the octal
value, so it fails on every other text; `"0755"` gives 493, `"abc"` and the
empty text fail; and on every text that is not valid the pipeline returns the
error `invalid permissions: ...` wrapping the parse error, having made no call
at all (no format, mkdir, mount, UUID lookup, table write or verify) and
leaving the world as it was. -/
theorem C2_permissions_parsed_as_octal :
    (∀ s : String, validPermissions s ↔ ∃ v, ParseUint s 8 32 = .ok v) ∧
    (∀ s : String, validPermissions s → ParseUint s 8 32 = .ok (octalValue s)) ∧
    ParseUint "0755" 8 32 = .ok 493 ∧
    ParseUint "abc" 8 32 = .error (syntaxError "ParseUint" "abc") ∧
    ParseUint "" 8 32 = .error (syntaxError "ParseUint" "") ∧
    (∀ (L T σ : Type) (os : OS σ) (m : model L T) (s : σ),
      ¬ validPermissions m.permissions →
      ∃ e, ParseUint m.permissions 8 32 = .error e ∧
        formatAndMount os m s = ⟨s, [], .err (.errorf "invalid permissions" e)⟩) := by
  refine ⟨?_, ParseUint_ok, rfl, rfl, rfl, ?_⟩
  · intro s
    constructor
    · intro h; exact ⟨_, ParseUint_ok s h⟩
    · rintro ⟨v, hv⟩
      by_contra hc
      obtain ⟨e, he⟩ := ParseUint_error s hc
      rw [he] at hv
      cases hv
  · intro L T σ os m s h
    obtain ⟨e, he⟩ := ParseUint_error m.permissions h
    refine ⟨e, he, ?_⟩
    simp only [formatAndMount, he]

/-- C1: the pipeline is fail-fast. The statement follows the seven steps in
order. At each step, if the step fails with cause `e` (all earlier steps having
succeeded), the run ends there: the calls made are exactly those of the steps
up to this one (plus the deferred close of the table file once it was opened),
the world is the one the failing call left, and the message is the error of
that step wrapping `e`. If all seven steps succeed the message is the success
text. Conversely a success message is returned only if all seven steps
succeeded, and every error returned classifies as the failure kind of a step
`N` with no call of a later step made. -/
theorem C1_pipeline_fail_fast {L T σ : Type} (os : OS σ) (m : model L T) (s : σ) :
    (∀ e, ParseUint m.permissions 8 32 = .error e →
      formatAndMount os m s = ⟨s, [], .err (.errorf "invalid permissions" e)⟩) ∧
    (∀ perm, ParseUint m.permissions 8 32 = .ok perm →
      (∀ e s1, os.mkfs m.selectedDisk s = (some e, s1) →
        formatAndMount os m s =
          ⟨s1, [.mkfs m.selectedDisk], .err (.errorf "failed to format disk" e)⟩) ∧
      (∀ s1, os.mkfs m.selectedDisk s = (none, s1) →
      (∀ e s2, os.mkdirAll m.mountPoint (FileMode perm) s1 = (some e, s2) →
        formatAndMount os m s =
          ⟨s2, [.mkfs m.selectedDisk, .mkdirAll m.mountPoint (FileMode perm)],
            .err (.errorf "failed to create mount point" e)⟩) ∧
      (∀ s2, os.mkdirAll m.mountPoint (FileMode perm) s1 = (none, s2) →
      (∀ e s3, os.mount m.selectedDisk m.mountPoint s2 = (some e, s3) →
        formatAndMount os m s =
          ⟨s3, [.mkfs m.selectedDisk, .mkdirAll m.mountPoint (FileMode perm),
              .mount m.selectedDisk m.mountPoint],
            .err (.errorf "failed to mount disk" e)⟩) ∧
      (∀ s3, os.mount m.selectedDisk m.mountPoint s2 = (none, s3) →
      (∀ e s4, os.blkid m.selectedDisk s3 = (.error e, s4) →
        formatAndMount os m s =
          ⟨s4, [.mkfs m.selectedDisk, .mkdirAll m.mountPoint (FileMode perm),
              .mount m.selectedDisk m.mountPoint, .blkid m.selectedDisk],
            .err (.errorf "failed to get disk UUID" e)⟩) ∧
      (∀ output s4, os.blkid m.selectedDisk s3 = (.ok output, s4) →
      (∀ e s5, os.openFstab s4 = (some e, s5) →
        formatAndMount os m s =
          ⟨s5, [.mkfs m.selectedDisk, .mkdirAll m.mountPoint (FileMode perm),
              .mount m.selectedDisk m.mountPoint, .blkid m.selectedDisk, .openFstab],
            .err (.errorf "failed to update /etc/fstab" e)⟩) ∧
      (∀ s5, os.openFstab s4 = (none, s5) →
      (∀ e s6, os.writeString (fstabEntry (TrimSpace output) m.mountPoint) s5 = (some e, s6) →
        formatAndMount os m s =
          ⟨os.close s6, [.mkfs m.selectedDisk, .mkdirAll m.mountPoint (FileMode perm),
              .mount m.selectedDisk m.mountPoint, .blkid m.selectedDisk, .openFstab,
              .writeString (fstabEntry (TrimSpace output) m.mountPoint), .close],
            .err (.errorf "failed to write to /etc/fstab" e)⟩) ∧
      (∀ s6, os.writeString (fstabEntry (TrimSpace output) m.mountPoint) s5 = (none, s6) →
      (∀ e s7, os.mountAll s6 = (some e, s7) →
        formatAndMount os m s =
          ⟨os.close s7, [.mkfs m.selectedDisk, .mkdirAll m.mountPoint (FileMode perm),
              .mount m.selectedDisk m.mountPoint, .blkid m.selectedDisk, .openFstab,
              .writeString (fstabEntry (TrimSpace output) m.mountPoint), .mountAll, .close],
            .err (.errorf "failed to test mount" e)⟩) ∧
      (∀ s7, os.mountAll s6 = (none, s7) →
        formatAndMount os m s =
          ⟨os.close s7, [.mkfs m.selectedDisk, .mkdirAll m.mountPoint (FileMode perm),
              .mount m.selectedDisk m.mountPoint, .blkid m.selectedDisk, .openFstab,
              .writeString (fstabEntry (TrimSpace output) m.mountPoint), .mountAll, .close],
            .str "Disk successfully formatted and mounted!"⟩)))))))) ∧
    (∀ t, (formatAndMount os m s).msg = .str t →
      ∃ perm s1 s2 s3 output s4 s5 s6 s7,
        ParseUint m.permissions 8 32 = .ok perm ∧
        os.mkfs m.selectedDisk s = (none, s1) ∧
        os.mkdirAll m.mountPoint (FileMode perm) s1 = (none, s2) ∧
        os.mount m.selectedDisk m.mountPoint s2 = (none, s3) ∧
        os.blkid m.selectedDisk s3 = (.ok output, s4) ∧
        os.openFstab s4 = (none, s5) ∧
        os.writeString (fstabEntry (TrimSpace output) m.mountPoint) s5 = (none, s6) ∧
        os.mountAll s6 = (none, s7)) ∧
    ((∃ t, (formatAndMount os m s).msg = .str t) ∨
      ∃ e kind cause, (formatAndMount os m s).msg = .err e ∧
        classify e = some (kind, cause) ∧
        ∀ c ∈ (formatAndMount os m s).calls, c.step ≤ kind.step) := by
  refine ⟨?_, ?_, ?_, ?_⟩
  · intro e h
    simp only [formatAndMount, h]
  · intro perm hp
    refine ⟨fun e s1 h1 => by simp only [formatAndMount, hp, h1], fun s1 h1 => ?_⟩
    refine ⟨fun e s2 h2 => by simp only [formatAndMount, hp, h1, h2], fun s2 h2 => ?_⟩
    refine ⟨fun e s3 h3 => by simp [formatAndMount, hp, h1, h2, h3], fun s3 h3 => ?_⟩
    refine ⟨fun e s4 h4 => by simp [formatAndMount, hp, h1, h2, h3, h4], fun out s4 h4 => ?_⟩
    refine ⟨fun e s5 h5 => by simp [formatAndMount, hp, h1, h2, h3, h4, h5], fun s5 h5 => ?_⟩
    refine ⟨fun e s6 h6 => by simp [formatAndMount, hp, h1, h2, h3, h4, h5, h6],
      fun s6 h6 => ?_⟩
    exact ⟨fun e s7 h7 => by simp [formatAndMount, hp, h1, h2, h3, h4, h5, h6, h7],
      fun s7 h7 => by simp [formatAndMount, hp, h1, h2, h3, h4, h5, h6, h7]⟩
  · intro t ht
    cases hp : ParseUint m.permissions 8 32 with
    | error e => simp [formatAndMount, hp] at ht
    | ok perm =>
    rcases h1 : os.mkfs m.selectedDisk s with ⟨_ | e, s1⟩
    swap
    · simp [formatAndMount, hp, h1] at ht
    rcases h2 : os.mkdirAll m.mountPoint (FileMode perm) s1 with ⟨_ | e, s2⟩
    swap
    · simp [formatAndMount, hp, h1, h2] at ht
    rcases h3 : os.mount m.selectedDisk m.mountPoint s2 with ⟨_ | e, s3⟩
    swap
    · simp [formatAndMount, hp, h1, h2, h3] at ht
    rcases h4 : os.blkid m.selectedDisk s3 with ⟨e | out, s4⟩
    · simp [formatAndMount, hp, h1, h2, h3, h4] at ht
    rcases h5 : os.openFstab s4 with ⟨_ | e, s5⟩
    swap
    · simp [formatAndMount, hp, h1, h2, h3, h4, h5] at ht
    rcases h6 : os.writeString (fstabEntry (TrimSpace out) m.mountPoint) s5 with ⟨_ | e, s6⟩
    swap
    · simp [formatAndMount, hp, h1, h2, h3, h4, h5, h6] at ht
    rcases h7 : os.mountAll s6 with ⟨_ | e, s7⟩
    swap
    · simp [formatAndMount, hp, h1, h2, h3, h4, h5, h6, h7] at ht
    exact ⟨perm, s1, s2, s3, out, s4, s5, s6, s7, rfl, rfl, h2, h3, h4, h5, h6, h7⟩
  · cases hp : ParseUint m.permissions 8 32 with
    | error e =>
      right
      exact ⟨.errorf "invalid permissions" e, .InvalidPermissions, e,
        by simp [formatAndMount, hp],
        by simp [classify],
        by simp [formatAndMount, hp]⟩
    | ok perm =>
    rcases h1 : os.mkfs m.selectedDisk s with ⟨_ | e, s1⟩
    swap
    · right
      exact ⟨.errorf "failed to format disk" e, .FormatFailed, e,
        by simp [formatAndMount, hp, h1],
        by simp [classify],
        by simp [formatAndMount, hp, h1, Call.step, FailureKind.step]⟩
    rcases h2 : os.mkdirAll m.mountPoint (FileMode perm) s1 with ⟨_ | e, s2⟩
    swap
    · right
      exact ⟨.errorf "failed to create mount point" e, .MkdirFailed, e,
        by simp [formatAndMount, hp, h1, h2],
        by simp [classify],
        by simp [formatAndMount, hp, h1, h2, Call.step, FailureKind.step]⟩
    rcases h3 : os.mount m.selectedDisk m.mountPoint s2 with ⟨_ | e, s3⟩
    swap
    · right
      exact ⟨.errorf "failed to mount disk" e, .MountFailed, e,
        by simp [formatAndMount, hp, h1, h2, h3],
        by simp [classify],
        by simp [formatAndMount, hp, h1, h2, h3, Call.step, FailureKind.step]⟩
    rcases h4 : os.blkid m.selectedDisk s3 with ⟨e | out, s4⟩
    · right
      exact ⟨.errorf "failed to get disk UUID" e, .UUIDLookupFailed, e,
        by simp [formatAndMount, hp, h1, h2, h3, h4],
        by simp [classify],
        by simp [formatAndMount, hp, h1, h2, h3, h4, Call.step, FailureKind.step]⟩
    rcases h5 : os.openFstab s4 with ⟨_ | e, s5⟩
    swap
    · right
      exact ⟨.errorf "failed to update /etc/fstab" e, .FstabWriteFailed, e,
        by simp [formatAndMount, hp, h1, h2, h3, h4, h5],
        by simp [classify],
        by simp [formatAndMount, hp, h1, h2, h3, h4, h5, Call.step, FailureKind.step]⟩
    rcases h6 : os.writeString (fstabEntry (TrimSpace out) m.mountPoint) s5 with ⟨_ | e, s6⟩
    swap
    · right
      exact ⟨.errorf "failed to write to /etc/fstab" e, .FstabWriteFailed, e,
        by simp [formatAndMount, hp, h1, h2, h3, h4, h5, h6],
        by simp [classify],
        by simp [formatAndMount, hp, h1, h2, h3, h4, h5, h6, Call.step, FailureKind.step]⟩
    rcases h7 : os.mountAll s6 with ⟨_ | e, s7⟩
    swap
    · right
      exact ⟨.errorf "failed to test mount" e, .VerifyMountFailed, e,
        by simp [formatAndMount, hp, h1, h2, h3, h4, h5, h6, h7],
        by simp [classify],
        by simp [formatAndMount, hp, h1, h2, h3, h4, h5, h6, h7, Call.step, FailureKind.step]⟩
    left
    exact ⟨"Disk successfully formatted and mounted!",
      by simp [formatAndMount, hp, h1, h2, h3, h4, h5, h6, h7]⟩

/-- C1, at the failure scenario of the specification: mounting fails with the
cause `device busy` after steps 1 to 3 succeeded; the calls stop after
`mount` and the message is the mount error with its cause. -/
theorem C1_pipeline_fail_fast_witness :
    formatAndMount (fakeOS (some (.text "device busy")) (.ok "1234-5678\n")) demoModel [] =
      ⟨[], [.mkfs "/dev/sdb", .mkdirAll "/mnt/data" (FileMode 493),
          .mount "/dev/sdb" "/mnt/data"],
        .err (.errorf "failed to mount disk" (.text "device busy"))⟩ :=
  ((((C1_pipeline_fail_fast (fakeOS (some (.text "device busy")) (.ok "1234-5678\n"))
    demoModel []).2.1 493 rfl).2 [] rfl).2 [] rfl).1 (.text "device busy") [] rfl

/-- C3: the line appended to the mount table. In every run in which steps
1 to 5 succeed, `blkid` printing `raw`, and the table file is opened, where
`raw` is a UUID `u` free of leading and trailing white space with only white
space (possibly none) before and after it, the pipeline resolves the UUID `u`
and the one `WriteString` call it makes carries exactly the line
`"UUID=" ++ u ++ " " ++ mountPoint ++ " ext4 defaults,nofail 0 2\n"`. -/
theorem C3_fstab_line {L T σ : Type} (os : OS σ) (m : model L T) (s : σ)
    (perm : Nat) (s1 s2 s3 s4 s5 : σ) (raw pre u post : String)
    (hp : ParseUint m.permissions 8 32 = .ok perm)
    (h1 : os.mkfs m.selectedDisk s = (none, s1))
    (h2 : os.mkdirAll m.mountPoint (FileMode perm) s1 = (none, s2))
    (h3 : os.mount m.selectedDisk m.mountPoint s2 = (none, s3))
    (h4 : os.blkid m.selectedDisk s3 = (.ok raw, s4))
    (h5 : os.openFstab s4 = (none, s5))
    (hraw : raw = pre ++ u ++ post) (hpre : isBlank pre = true) (hpost : isBlank post = true)
    (hu : isTrimmed u = true) :
    TrimSpace raw = u ∧
    ∀ line, Call.writeString line ∈ (formatAndMount os m s).calls ↔
      line = "UUID=" ++ u ++ " " ++ m.mountPoint ++ " ext4 defaults,nofail 0 2\n" := by
  have ht : TrimSpace raw = u := by rw [hraw]; exact TrimSpace_surrounded pre u post hpre hpost hu
  refine ⟨ht, fun line => ?_⟩
  rcases h6 : os.writeString (fstabEntry u m.mountPoint) s5 with ⟨_ | e, s6⟩
  · rcases h7 : os.mountAll s6 with ⟨_ | e, s7⟩ <;>
      simp only [formatAndMount, hp, h1, h2, h3, h4, h5, h6, h7, ht] <;>
      simp [fstabEntry]
  · simp only [formatAndMount, hp, h1, h2, h3, h4, h5, h6, ht]
    simp [fstabEntry]

/-- C3, at the example of the specification: `blkid` prints `"  1234-5678\n"`,
the mount point is `/mnt/data`, and the line written is
`UUID=1234-5678 /mnt/data ext4 defaults,nofail 0 2\n`. -/
theorem C3_fstab_line_witness :
    TrimSpace "  1234-5678\n" = "1234-5678" ∧
    ∀ line, Call.writeString line ∈
        (formatAndMount (fakeOS none (.ok "  1234-5678\n")) demoModel []).calls ↔
      line = "UUID=1234-5678 /mnt/data ext4 defaults,nofail 0 2\n" :=
  C3_fstab_line (fakeOS none (.ok "  1234-5678\n")) demoModel [] 493 [] [] [] [] []
    "  1234-5678\n" "  " "1234-5678" "\n" rfl rfl rfl rfl rfl rfl (by decide) (by decide)
    (by decide) (by decide)

/-- C5: in the phase `stateChooseDisk`, when the list has no selected item,
`Update` on the key `enter` keeps the phase `stateChooseDisk`, leaves
`selectedDisk` as it was and returns no command; the only field it touches
is the text input, whose value it resets. -/
theorem C5_enter_without_selection {L T : Type} (w : Widgets L T) (m : model L T)
    (hstate : m.state = .stateChooseDisk) (hsel : w.listSelectedItem m.list = none) :
    ∃ m', Update w m (.key "enter") = some (m', none) ∧
      m'.state = .stateChooseDisk ∧ m'.selectedDisk = m.selectedDisk ∧
      m' = { m with textInput := w.textInputSetValue m.textInput "" } := by
  refine ⟨{ m with textInput := w.textInputSetValue m.textInput "" }, ?_, hstate, rfl, rfl⟩
  simp [Update, hstate, hsel]

/-- C5, at the initial session over an empty list of disks. -/
theorem C5_enter_without_selection_witness :
    ∃ m', Update unitWidgets (initialModel unitWidgets []) (.key "enter") = some (m', none) ∧
      m'.state = .stateChooseDisk ∧
      m'.selectedDisk = (initialModel unitWidgets []).selectedDisk ∧
      m' = { initialModel unitWidgets [] with
        textInput := unitWidgets.textInputSetValue (initialModel unitWidgets []).textInput "" } :=
  C5_enter_without_selection unitWidgets (initialModel unitWidgets []) rfl rfl

/-- C6: the quit key `q` in `Update`. In every phase but `stateFormatAndMount`
the call returns the session unchanged together with the command `tea.Quit`;
in the phase `stateFormatAndMount` it returns the session unchanged (so the
phase stays `stateFormatAndMount`) and no command. -/
theorem C6_quit_key {L T : Type} (w : Widgets L T) (m : model L T) :
    Update w m (.key "q") =
      some (m, if m.state = .stateFormatAndMount then none else some .quit) := by
  cases hs : m.state <;> simp [Update, hs]

/-- C7: the terminal event of the pipeline in the phase `stateFormatAndMount`.
On a `string` message `Update` moves to `stateDone` with a nil `err`, on an
`error` message it moves to `stateDone` with `err` the delivered error; in
both cases it returns no command and changes no other field. -/
theorem C7_terminal_event {L T : Type} (w : Widgets L T) (m : model L T)
    (hstate : m.state = .stateFormatAndMount) :
    (∀ t : String, Update w m (.str t) =
      some ({ m with state := .stateDone, err := none }, none)) ∧
    (∀ e : GoError, Update w m (.err e) =
      some ({ m with state := .stateDone, err := some e }, none)) := by
  constructor
  · intro t; simp [Update, hstate]
  · intro e; simp [Update, hstate]

/-- C7, at the session of the end-to-end scenario. -/
theorem C7_terminal_event_witness :
    (∀ t : String, Update unitWidgets demoModel (.str t) =
      some ({ demoModel with state := .stateDone, err := none }, none)) ∧
    (∀ e : GoError, Update unitWidgets demoModel (.err e) =
      some ({ demoModel with state := .stateDone, err := some e }, none)) :=
  C7_terminal_event unitWidgets demoModel rfl

/-- C8: a timer tick in the phase `stateDone` changes nothing and arms no new
tick: `Update` returns the session as it is and no command. By contrast, for
every session in the phase `stateFormatAndMount` a tick replaces the indicator
by `loading.next` and returns `tickCmd()` (the call panics when the indicator
has no glyphs); when the index is within the glyphs (a Go slice has fewer than
`2 ^ 63` elements), the new index is the next one, wrapping from the last to
the first. -/
theorem C8_tick_after_done {L T : Type} (w : Widgets L T) (m : model L T)
    (hstate : m.state = .stateDone) :
    Update w m .tickMsg = some (m, none) ∧
    ∀ m2 : model L T, m2.state = .stateFormatAndMount →
      Update w m2 .tickMsg =
        m2.loading.next.map (fun lm => ({ m2 with loading := lm }, some .tickCmd)) ∧
      (0 ≤ m2.loading.tickIndex → m2.loading.tickIndex < m2.loading.ticks.length →
        (m2.loading.ticks.length : Int) < 2 ^ 63 →
        m2.loading.next = some
          { tickIndex := (m2.loading.tickIndex + 1) % m2.loading.ticks.length
            ticks := m2.loading.ticks }) := by
  refine ⟨by simp [Update, hstate], fun m2 h2 => ⟨?_, ?_⟩⟩
  · cases hn : m2.loading.next <;> simp [Update, h2, hn]
  · intro h0 hlt hbound
    have hlen : m2.loading.ticks.length ≠ 0 := by
      intro h; rw [h] at hlt; simp at hlt; omega
    have hwrap : wrapInt (m2.loading.tickIndex + 1) = m2.loading.tickIndex + 1 := by
      unfold wrapInt
      norm_num at hbound ⊢
      omega
    simp only [loadingModel.next, if_neg hlen, hwrap]
    rw [Int.tmod_eq_emod (by omega) (by omega)]

/-- C8, at the session of the end-to-end scenario once it is done: the tick is
dropped; in the phase `stateFormatAndMount` the indicator moves from the first
glyph to the second and a new tick is armed. -/
theorem C8_tick_after_done_witness :
    Update unitWidgets { demoModel with state := .stateDone } .tickMsg =
      some ({ demoModel with state := .stateDone }, none) ∧
    Update unitWidgets demoModel .tickMsg =
      some ({ demoModel with loading := { newLoadingModel with tickIndex := 1 } },
        some .tickCmd) :=
  ⟨(C8_tick_after_done unitWidgets { demoModel with state := .stateDone } rfl).1,
    ((C8_tick_after_done unitWidgets { demoModel with state := .stateDone } rfl).2
      demoModel rfl).1.trans rfl⟩

/-- C4: the pipeline is launched at most once in a session. For the calls of
`Update` on any sequence of messages from the initial session: at most one
call returns a command that launches the pipeline; such a call is the key
`enter` in the phase `stateEnterPermissions`, moves to `stateFormatAndMount`
and returns the batch of the pipeline closure and `tickCmd()`; the calls that
enter `stateFormatAndMount` are exactly the launching calls, there is at most
one, and exactly one when the session reaches `stateFormatAndMount`; the
phase never moves backwards; and `stateEnterPermissions` is entered at most
once. -/
theorem C4_pipeline_launched_at_most_once {L T : Type} (w : Widgets L T)
    (disks : List DiskItem) (msgs : List Msg) :
    (session w (initialModel w disks) msgs).countP Transition.launches ≤ 1 ∧
    (∀ t ∈ session w (initialModel w disks) msgs, t.launches = true →
      t.before.state = .stateEnterPermissions ∧ t.msg = .key "enter" ∧
      t.after.state = .stateFormatAndMount ∧
      t.cmd = some (.batch (.formatAndMount t.after) .tickCmd)) ∧
    (∀ t ∈ session w (initialModel w disks) msgs,
      t.enters .stateFormatAndMount = t.launches) ∧
    (session w (initialModel w disks) msgs).countP
      (Transition.enters .stateFormatAndMount) ≤ 1 ∧
    ((∃ t ∈ session w (initialModel w disks) msgs, t.after.state = .stateFormatAndMount) →
      (session w (initialModel w disks) msgs).countP
        (Transition.enters .stateFormatAndMount) = 1) ∧
    (∀ t ∈ session w (initialModel w disks) msgs,
      t.before.state.toNat ≤ t.after.state.toNat) ∧
    (session w (initialModel w disks) msgs).Pairwise
      (fun a b => a.after.state.toNat ≤ b.before.state.toNat) ∧
    (session w (initialModel w disks) msgs).countP
      (Transition.enters .stateEnterPermissions) ≤ 1 := by
  have hsame : ∀ t ∈ session w (initialModel w disks) msgs,
      t.enters .stateFormatAndMount = t.launches := by
    intro t ht
    exact (Update_step w _ _ _ _ (session_mem w msgs _ t ht).1).2.2.2.1
  refine ⟨?_, ?_, hsame, session_enters_le_one w _ msgs _, ?_, ?_, ?_,
    session_enters_le_one w _ msgs _⟩
  · have hcongr : (session w (initialModel w disks) msgs).countP Transition.launches =
        (session w (initialModel w disks) msgs).countP
          (Transition.enters .stateFormatAndMount) :=
      List.countP_congr (fun t ht => by rw [hsame t ht])
    rw [hcongr]
    exact session_enters_le_one w _ msgs _
  · intro t ht hl
    have hstep := Update_step w _ _ _ _ (session_mem w msgs _ t ht).1
    exact ⟨(hstep.2.1.mp hl).1, (hstep.2.1.mp hl).2, (hstep.2.2.1 hl).1, (hstep.2.2.1 hl).2⟩
  · intro h
    have h1 := session_enters_of_reached w msgs (initialModel w disks)
      (by simp [initialModel, state.toNat]) h
    have h2 := session_enters_le_one w .stateFormatAndMount msgs (initialModel w disks)
    omega
  · intro t ht
    exact (Update_step w _ _ _ _ (session_mem w msgs _ t ht).1).1
  · exact session_pairwise w msgs _

/-- C4, at the failure scenario of the specification: the session reaches
`stateFormatAndMount` with its sixth call, so that phase is entered exactly
once. -/
theorem C4_pipeline_launched_at_most_once_witness :
    (session demoWidgets (initialModel demoWidgets demoDisks) demoMsgs).countP
      (Transition.enters .stateFormatAndMount) = 1 :=
  (C4_pipeline_launched_at_most_once demoWidgets demoDisks demoMsgs).2.2.2.2.1
    ⟨(session demoWidgets (initialModel demoWidgets demoDisks) demoMsgs).get
        ⟨5, by decide⟩, List.get_mem _ _ _, rfl⟩

/-- C9, counterexample: the user quits at once. `Update` answers the key `q`
in the initial session with `tea.Quit` and the session unchanged, the final
phase is `stateChooseDisk`, not `stateDone`, and `main` still prints the line
`Program completed successfully!`. -/
theorem C9_quit_early_prints_success :
    Update unitWidgets (initialModel unitWidgets []) (.key "q") =
      some (initialModel unitWidgets [], some .quit) ∧
    (finalModel unitWidgets (initialModel unitWidgets []) [.key "q"]).state =
      .stateChooseDisk ∧
    mainOutput (fun t => t) (finalModel unitWidgets (initialModel unitWidgets []) [.key "q"]) =
      "Program completed successfully!\n" :=
  ⟨rfl, rfl, rfl⟩

/-- C9, amended: the line `main` prints is determined by the stored error of
the final session. For the final session of every sequence of messages from
the initial session: an error is stored only in the phase `stateDone`, and
then the line is `An error occurred: ` followed by the text of that error; in
every other case, `stateDone` without an error or any other phase, the line is
`Program completed successfully!`. -/
theorem C9_printed_line {L T : Type} (w : Widgets L T) (disks : List DiskItem)
    (msgs : List Msg) (quote : String → String) :
    (∀ e, (finalModel w (initialModel w disks) msgs).err = some e →
      (finalModel w (initialModel w disks) msgs).state = .stateDone ∧
      mainOutput quote (finalModel w (initialModel w disks) msgs) =
        "An error occurred: " ++ e.Error quote ++ "\n") ∧
    ((finalModel w (initialModel w disks) msgs).err = none →
      mainOutput quote (finalModel w (initialModel w disks) msgs) =
        "Program completed successfully!\n") ∧
    ((finalModel w (initialModel w disks) msgs).state ≠ .stateDone →
      mainOutput quote (finalModel w (initialModel w disks) msgs) =
        "Program completed successfully!\n") := by
  have hinv := finalModel_err_done w msgs (initialModel w disks) (Or.inl rfl)
  refine ⟨fun e he => ⟨?_, ?_⟩, fun hn => ?_, fun hs => ?_⟩
  · rcases hinv with h | h
    · rw [h] at he; cases he
    · exact h
  · simp [mainOutput, he]
  · simp only [mainOutput, hn]; rfl
  · rcases hinv with h | h
    · simp only [mainOutput, h]; rfl
    · exact absurd h hs

/-- C9, at the failure scenario of the specification: the final session
stores the mount error, so its phase is `stateDone` and the line printed
carries the text of the error. -/
theorem C9_printed_line_witness :
    (finalModel demoWidgets (initialModel demoWidgets demoDisks) demoMsgs).state =
      .stateDone ∧
    mainOutput (fun t => t)
        (finalModel demoWidgets (initialModel demoWidgets demoDisks) demoMsgs) =
      "An error occurred: " ++ deviceBusy.Error (fun t => t) ++ "\n" :=
  (C9_printed_line demoWidgets demoDisks demoMsgs (fun t => t)).1 deviceBusy rfl

/-- C10, counterexample: `blkid` exits successfully with white space only (or
with nothing at all). The pipeline does not fail at step 5: it appends the
line `UUID= /mnt/data ext4 defaults,nofail 0 2` to the mount table, runs
`mount -a` and reports success. -/
theorem C10_blank_uuid_is_written :
    formatAndMount (fakeOS none (.ok " \n")) demoModel [] =
      ⟨["UUID= /mnt/data ext4 defaults,nofail 0 2\n"],
        [.mkfs "/dev/sdb", .mkdirAll "/mnt/data" 493, .mount "/dev/sdb" "/mnt/data",
          .blkid "/dev/sdb", .openFstab,
          .writeString "UUID= /mnt/data ext4 defaults,nofail 0 2\n", .mountAll, .close],
        .str "Disk successfully formatted and mounted!"⟩ ∧
    formatAndMount (fakeOS none (.ok "")) demoModel [] =
      ⟨["UUID= /mnt/data ext4 defaults,nofail 0 2\n"],
        [.mkfs "/dev/sdb", .mkdirAll "/mnt/data" 493, .mount "/dev/sdb" "/mnt/data",
          .blkid "/dev/sdb", .openFstab,
          .writeString "UUID= /mnt/data ext4 defaults,nofail 0 2\n", .mountAll, .close],
        .str "Disk successfully formatted and mounted!"⟩ :=
  ⟨rfl, rfl⟩

/-- C10, amended: step 5 fails exactly when `blkid` itself fails. In a run in
which steps 1 to 4 succeed: if `blkid` returns an error, the pipeline returns
the error `failed to get disk UUID` wrapping it (failure kind
`UUIDLookupFailed`), having made no call of step 6 or 7; if `blkid` exits
successfully, whatever it printed, the pipeline goes on to open the mount
table, its result is not a `UUIDLookupFailed`, and when the output is white
space only and the table opens, the line `UUID= <mountPoint> ext4
defaults,nofail 0 2` is written. -/
theorem C10_uuid_lookup_failure {L T σ : Type} (os : OS σ) (m : model L T) (s : σ)
    (perm : Nat) (s1 s2 s3 : σ)
    (hp : ParseUint m.permissions 8 32 = .ok perm)
    (h1 : os.mkfs m.selectedDisk s = (none, s1))
    (h2 : os.mkdirAll m.mountPoint (FileMode perm) s1 = (none, s2))
    (h3 : os.mount m.selectedDisk m.mountPoint s2 = (none, s3)) :
    (∀ e s4, os.blkid m.selectedDisk s3 = (.error e, s4) →
      formatAndMount os m s =
        ⟨s4, [.mkfs m.selectedDisk, .mkdirAll m.mountPoint (FileMode perm),
            .mount m.selectedDisk m.mountPoint, .blkid m.selectedDisk],
          .err (.errorf "failed to get disk UUID" e)⟩ ∧
      classify (.errorf "failed to get disk UUID" e) = some (.UUIDLookupFailed, e)) ∧
    (∀ raw s4, os.blkid m.selectedDisk s3 = (.ok raw, s4) →
      Call.openFstab ∈ (formatAndMount os m s).calls ∧
      (∀ e cause, (formatAndMount os m s).msg = .err e →
        classify e ≠ some (.UUIDLookupFailed, cause)) ∧
      (isBlank raw = true → ∀ s5, os.openFstab s4 = (none, s5) →
        Call.writeString ("UUID= " ++ m.mountPoint ++ " ext4 defaults,nofail 0 2\n") ∈
          (formatAndMount os m s).calls)) := by
  refine ⟨fun e s4 h4 => ⟨by simp [formatAndMount, hp, h1, h2, h3, h4], by simp [classify]⟩,
    fun raw s4 h4 => ?_⟩
  rcases h5 : os.openFstab s4 with ⟨_ | e5, s5⟩
  swap
  · refine ⟨by simp [formatAndMount, hp, h1, h2, h3, h4, h5], ?_, ?_⟩
    · intro e cause he
      simp only [formatAndMount, hp, h1, h2, h3, h4, h5, Msg.err.injEq] at he
      subst he
      simp [classify]
    · intro _ s5' h5'
      simp at h5'
  rcases h6 : os.writeString (fstabEntry (TrimSpace raw) m.mountPoint) s5 with ⟨_ | e6, s6⟩
  swap
  · refine ⟨by simp [formatAndMount, hp, h1, h2, h3, h4, h5, h6], ?_, ?_⟩
    · intro e cause he
      simp only [formatAndMount, hp, h1, h2, h3, h4, h5, h6, Msg.err.injEq] at he
      subst he
      simp [classify]
    · intro hb s5' _
      have hline : fstabEntry (TrimSpace raw) m.mountPoint =
          "UUID= " ++ m.mountPoint ++ " ext4 defaults,nofail 0 2\n" := by
        rw [TrimSpace_blank raw hb]; rfl
      simp only [formatAndMount, hp, h1, h2, h3, h4, h5, h6]
      rw [hline]
      simp
  rcases h7 : os.mountAll s6 with ⟨_ | e7, s7⟩
  swap
  · refine ⟨by simp [formatAndMount, hp, h1, h2, h3, h4, h5, h6, h7], ?_, ?_⟩
    · intro e cause he
      simp only [formatAndMount, hp, h1, h2, h3, h4, h5, h6, h7, Msg.err.injEq] at he
      subst he
      simp [classify]
    · intro hb s5' _
      have hline : fstabEntry (TrimSpace raw) m.mountPoint =
          "UUID= " ++ m.mountPoint ++ " ext4 defaults,nofail 0 2\n" := by
        rw [TrimSpace_blank raw hb]; rfl
      simp only [formatAndMount, hp, h1, h2, h3, h4, h5, h6, h7]
      rw [hline]
      simp
  · refine ⟨by simp [formatAndMount, hp, h1, h2, h3, h4, h5, h6, h7], ?_, ?_⟩
    · intro e cause he
      simp [formatAndMount, hp, h1, h2, h3, h4, h5, h6, h7] at he
    · intro hb s5' _
      have hline : fstabEntry (TrimSpace raw) m.mountPoint =
          "UUID= " ++ m.mountPoint ++ " ext4 defaults,nofail 0 2\n" := by
        rw [TrimSpace_blank raw hb]; rfl
      simp only [formatAndMount, hp, h1, h2, h3, h4, h5, h6, h7]
      rw [hline]
      simp

/-- C10, at two runs of the end-to-end scenario: when `blkid` fails with
`exit status 2` the pipeline stops with the UUID lookup error after four
calls; when it prints white space only the empty UUID is written. -/
theorem C10_uuid_lookup_failure_witness :
    (formatAndMount (fakeOS none (.error (.text "exit status 2"))) demoModel [] =
        ⟨[], [.mkfs "/dev/sdb", .mkdirAll "/mnt/data" (FileMode 493),
            .mount "/dev/sdb" "/mnt/data", .blkid "/dev/sdb"],
          .err (.errorf "failed to get disk UUID" (.text "exit status 2"))⟩ ∧
      classify (.errorf "failed to get disk UUID" (.text "exit status 2")) =
        some (.UUIDLookupFailed, .text "exit status 2")) ∧
    Call.writeString ("UUID= " ++ "/mnt/data" ++ " ext4 defaults,nofail 0 2\n") ∈
      (formatAndMount (fakeOS none (.ok " \n")) demoModel []).calls :=
  ⟨(C10_uuid_lookup_failure (fakeOS none (.error (.text "exit status 2"))) demoModel []
      493 [] [] [] rfl rfl rfl rfl).1 (.text "exit status 2") [] rfl,
    ((C10_uuid_lookup_failure (fakeOS none (.ok " \n")) demoModel []
      493 [] [] [] rfl rfl rfl rfl).2 " \n" [] rfl).2.2 (by decide) [] rfl⟩

/-! ## The end-to-end scenarios of the specification -/

/-- The failure scenario, pipeline: mounting fails with `device busy`; the
calls stop after `mount`, nothing is written to the mount table, and the
message is the mount error with its cause. -/
theorem scenario_mount_fails_pipeline :
    formatAndMount (fakeOS (some (.text "device busy")) (.ok "1234-5678\n")) demoModel [] =
      ⟨[], [.mkfs "/dev/sdb", .mkdirAll "/mnt/data" 493, .mount "/dev/sdb" "/mnt/data"],
        .err deviceBusy⟩ ∧
    classify deviceBusy = some (.MountFailed, .text "device busy") :=
  ⟨rfl, rfl⟩

/-- The success scenario, pipeline: all seven steps succeed and one line is
appended to the mount table. -/
theorem scenario_success_pipeline :
    formatAndMount (fakeOS none (.ok "1234-5678\n")) demoModel [] =
      ⟨["UUID=1234-5678 /mnt/data ext4 defaults,nofail 0 2\n"],
        [.mkfs "/dev/sdb", .mkdirAll "/mnt/data" 493, .mount "/dev/sdb" "/mnt/data",
          .blkid "/dev/sdb", .openFstab,
          .writeString "UUID=1234-5678 /mnt/data ext4 defaults,nofail 0 2\n",
          .mountAll, .close],
        .str "Disk successfully formatted and mounted!"⟩ :=
  rfl

/-- The failure scenario, wizard: the session ends in `stateDone` with the
mount error stored, the fields hold what the user chose, the pipeline was
launched by exactly one call, the late tick changed nothing, and `main`
prints the error with its cause. -/
theorem scenario_mount_fails_wizard :
    (finalModel demoWidgets (initialModel demoWidgets demoDisks) demoMsgs).state =
      .stateDone ∧
    (finalModel demoWidgets (initialModel demoWidgets demoDisks) demoMsgs).err =
      some deviceBusy ∧
    (finalModel demoWidgets (initialModel demoWidgets demoDisks) demoMsgs).selectedDisk =
      "/dev/sdb" ∧
    (finalModel demoWidgets (initialModel demoWidgets demoDisks) demoMsgs).mountPoint =
      "/mnt/data" ∧
    (finalModel demoWidgets (initialModel demoWidgets demoDisks) demoMsgs).permissions =
      "0755" ∧
    (finalModel demoWidgets (initialModel demoWidgets demoDisks) demoMsgs).loading.tickIndex =
      2 ∧
    (session demoWidgets (initialModel demoWidgets demoDisks) demoMsgs).length = 11 ∧
    (session demoWidgets (initialModel demoWidgets demoDisks) demoMsgs).countP
      Transition.launches = 1 ∧
    mainOutput (fun t => t)
        (finalModel demoWidgets (initialModel demoWidgets demoDisks) demoMsgs) =
      "An error occurred: failed to mount disk: device busy\n" :=
  ⟨rfl, rfl, rfl, rfl, rfl, rfl, rfl, rfl, rfl⟩

end Automountify
